import Mathlib

/-!
Verification of the cloud sync storage adapter
(`packages/frontend/workspace-impl/src/cloud/sync.ts`).

The file shallowly embeds the two classes `AffineSyncStorage` and
`AffineStaticSyncStorage`.  Binary payloads (`Uint8Array`) are modelled as
`List Nat`; `undefined`-able values as `Option`; thrown errors as `Except`.
The side-effecting parts (what gets emitted on the socket, which listeners
are installed) are embedded as pure functions from inputs/states to the
record that is sent, respectively as explicit state machines over the
listener set, with the emitted calls returned as output lists.
-/

namespace AffineSync

/-- Modelled from the spec: the binary-to-text codec
(`uint8ArrayToBase64` from `../utils/base64`, not part of the sources
under verification).  The spec only requires a transport-safe text
encoding with `decode (encode b) = b` for all byte sequences including
the empty one; a byte-to-hex-pair encoding is used as the concrete
stand-in, which no claim distinguishes from base64. -/
def uint8ArrayToBase64 (b : List Nat) : String :=
  String.mk (b.flatMap fun x =>
    [Char.ofNat (if x / 16 % 16 < 10 then 48 + x / 16 % 16 else 87 + x / 16 % 16),
     Char.ofNat (if x % 16 < 10 then 48 + x % 16 else 87 + x % 16)])

/-- Value of one text character of the encoding. -/
def hexVal (c : Char) : Nat :=
  if c.toNat ≥ 97 then c.toNat - 87 else c.toNat - 48

/-- Decode consecutive character pairs back into bytes. -/
def hexPairs : List Char → List Nat
  | c1 :: c2 :: rest => (hexVal c1 * 16 + hexVal c2) :: hexPairs rest
  | _ => []

/-- Modelled from the spec: inverse direction of the codec
(`base64ToUint8Array` from `../utils/base64`). -/
def base64ToUint8Array (s : String) : List Nat :=
  hexPairs s.data

/-- Class field `SEND_TIMEOUT = 30000` of `AffineSyncStorage`. -/
def SEND_TIMEOUT : Nat := 30000

/-- Payload of the `doc-load-v2` request built by `AffineSyncStorage.pull`. -/
structure PullRequestPayload where
  workspaceId : String
  guid : String
  stateVector : Option String
deriving DecidableEq

/-- One acknowledgement-based request as sent by
`socket.timeout(t).emitWithAck(event, payload)`. -/
structure PullSend where
  event : String
  timeoutMs : Nat
  payload : PullRequestPayload
deriving DecidableEq

/-- The request `AffineSyncStorage.pull` sends.  The source computes
`state ? await uint8ArrayToBase64(state) : undefined`: a `Uint8Array`
object is truthy in JavaScript whenever it is present, regardless of its
length, so a present `state` is always encoded and only an absent one
(modelled `none`) yields an omitted `stateVector` field. -/
def pullSend (workspaceId docId : String) (state : Option (List Nat)) : PullSend :=
  { event := "doc-load-v2"
    timeoutMs := SEND_TIMEOUT
    payload :=
      { workspaceId := workspaceId
        guid := docId
        stateVector := state.map uint8ArrayToBase64 } }

/-- Payload of the `client-update-v2` request built by `AffineSyncStorage.push`. -/
structure PushRequestPayload where
  workspaceId : String
  guid : String
  updates : List String
deriving DecidableEq

/-- One push request as sent on the socket. -/
structure PushSend where
  event : String
  timeoutMs : Nat
  payload : PushRequestPayload
deriving DecidableEq

/-- The request `AffineSyncStorage.push` sends: the single encoded update
is wrapped in a one-element `updates` array. -/
def pushSend (workspaceId docId : String) (update : List Nat) : PushSend :=
  { event := "client-update-v2"
    timeoutMs := SEND_TIMEOUT
    payload :=
      { workspaceId := workspaceId
        guid := docId
        updates := [uint8ArrayToBase64 update] } }

/-- The error object of a pull reply (`response.error` with `code` and
`message`). -/
structure ErrorObj where
  code : String
  message : String
deriving DecidableEq

/-- Reply to a `doc-load-v2` request: either `{error}` or
`{data: {missing, state?}}`. -/
inductive PullReply where
  | err (e : ErrorObj)
  | payload (missing : String) (state : Option String)
deriving DecidableEq

/-- The value `pull` resolves with in the non-`null` case. -/
structure PullResult where
  data : List Nat
  state : Option (List Nat)
deriving DecidableEq

instance : DecidableEq (Except String (Option PullResult)) := fun a b =>
  match a, b with
  | .error x, .error y => decidable_of_iff (x = y) (by constructor <;> (intro h; cases h; rfl))
  | .ok x, .ok y => decidable_of_iff (x = y) (by constructor <;> (intro h; cases h; rfl))
  | .error _, .ok _ => .isFalse (by intro h; cases h)
  | .ok _, .error _ => .isFalse (by intro h; cases h)

/-- Reply handling of `AffineSyncStorage.pull` (lines 68-82 of the
source): `DOC_NOT_FOUND` becomes `null`; any other error object is
thrown with its `message`; a data reply decodes `missing` and decodes
`state` only when `response.data.state` is truthy, i.e. a present
non-empty string (the empty string is falsy in JavaScript). -/
def pullHandleReply : PullReply → Except String (Option PullResult)
  | .err e =>
      if e.code = "DOC_NOT_FOUND" then .ok none
      else .error e.message
  | .payload missing st =>
      .ok (some
        { data := base64ToUint8Array missing
          state :=
            match st with
            | some s => if s.isEmpty then none else some (base64ToUint8Array s)
            | none => none })

/-- A JavaScript value, as far as truthiness of the untyped `error`
field of a push reply is concerned. -/
inductive JsValue where
  | null
  | undef
  | bool (b : Bool)
  | num (n : Int)
  | str (s : String)
  | obj
deriving DecidableEq

/-- JavaScript truthiness of a `JsValue`. -/
def JsValue.truthy : JsValue → Bool
  | .null => false
  | .undef => false
  | .bool b => b
  | .num n => n ≠ 0
  | .str s => !s.isEmpty
  | .obj => true

/-- Reply to a `client-update-v2` request: `{error?: any, data: any}`;
only the `error` field influences control flow. -/
structure PushReply where
  error : Option JsValue
deriving DecidableEq

instance : DecidableEq (Except JsValue Unit) := fun a b =>
  match a, b with
  | .error x, .error y => decidable_of_iff (x = y) (by constructor <;> (intro h; cases h; rfl))
  | .ok _, .ok _ => .isTrue rfl
  | .error _, .ok _ => .isFalse (by intro h; cases h)
  | .ok _, .error _ => .isFalse (by intro h; cases h)

/-- Reply handling of `AffineSyncStorage.push` (lines 106-115 of the
source): `if (response.error) throw new Error(response.error)` — a
truthy `error` value is thrown, anything else resolves with no value. -/
def pushHandleReply (r : PushReply) : Except JsValue Unit :=
  match r.error with
  | some e => if e.truthy then .error e else .ok ()
  | none => .ok ()

/-- A `server-updates` broadcast message `{workspaceId, guid, updates}`. -/
structure Broadcast where
  workspaceId : String
  guid : String
  updates : List String
deriving DecidableEq

/-- The body of the `handleUpdate` closure installed by
`AffineSyncStorage.subscribe`: the list of `cb(docId, data)` invocations
one broadcast causes, in order.  The source compares the embedded
`message.workspaceId` against the bound workspace id and, on a match,
decodes every entry of `message.updates` with `forEach`. -/
def handleUpdate (bound : String) (m : Broadcast) : List (String × List Nat) :=
  if m.workspaceId = bound then
    m.updates.map fun u => (m.guid, base64ToUint8Array u)
  else []

/-- Listener state of one subscription: whether its `handleUpdate` /
`handleDisconnect` closures are currently registered on the socket. -/
structure SubState where
  updateOn : Bool
  disconnectOn : Bool
deriving DecidableEq

/-- Calling `subscribe` registers both closures with `socket.on`. -/
def subscribeInstall : SubState :=
  { updateOn := true, disconnectOn := true }

/-- An observable callback invocation made by the subscription. -/
inductive CallOut where
  | update (docId : String) (data : List Nat)
  | disconnected (reason : String)
deriving DecidableEq

/-- An event the socket can deliver to an installed subscription. -/
inductive SubEvent where
  | broadcast (m : Broadcast)
  | disconnect (reason : String)
deriving DecidableEq

/-- One socket event against one subscription.  A broadcast reaches
`handleUpdate` only while that closure is registered; a `disconnect`
event reaches `handleDisconnect`, whose body first runs
`socket.off('server-updates', handleUpdate)` and then calls
`disconnect(reason)` — so the post-state has the update closure removed
while the disconnect closure stays registered. -/
def subStep (bound : String) (st : SubState) : SubEvent → SubState × List CallOut
  | .broadcast m =>
      if st.updateOn then
        (st, (handleUpdate bound m).map fun p => .update p.1 p.2)
      else (st, [])
  | .disconnect r =>
      if st.disconnectOn then
        ({ st with updateOn := false }, [.disconnected r])
      else (st, [])

/-- The cancellation handle returned by `subscribe`: it runs
`socket.off` on both closures; `off` on an already-removed closure is a
no-op, so the result is both flags cleared regardless of the input. -/
def cancel (_st : SubState) : SubState :=
  { updateOn := false, disconnectOn := false }

/-- A message emitted fire-and-forget on the socket. -/
inductive Emission where
  | handshake (workspaceId : String)
  | leave (workspaceId : String)
deriving DecidableEq

/-- Listener state of the client itself: whether the `handleConnect`
closure installed by the constructor is still registered. -/
structure ClientState where
  connectHandlerOn : Bool
deriving DecidableEq

/-- What the `AffineSyncStorage` constructor does, depending on whether
`socket.connected` already holds: it always registers `handleConnect`
for the `connect` event; when connected it emits one
`client-handshake-sync` immediately, otherwise it emits nothing and
calls `socket.connect()`. -/
structure ConstructResult where
  st : ClientState
  emissions : List Emission
  connectRequested : Bool
deriving DecidableEq

/-- Embedding of the constructor (source lines 18-33, minus the cleanup
registration, which no event below triggers). -/
def construct (workspaceId : String) (connected : Bool) : ConstructResult :=
  { st := { connectHandlerOn := true }
    emissions := if connected then [.handshake workspaceId] else []
    connectRequested := !connected }

/-- The `handleConnect` closure: emits one handshake for the bound id. -/
def handleConnect (workspaceId : String) : List Emission :=
  [.handshake workspaceId]

/-- A lifecycle event of the channel. -/
inductive LifecycleEvent where
  | connect
  | disconnect
deriving DecidableEq

/-- One lifecycle event against the client: a `connect` event invokes
`handleConnect` while it is registered; the client installs no handler
of its own for `disconnect`. -/
def lifecycleStep (workspaceId : String) (st : ClientState) :
    LifecycleEvent → ClientState × List Emission
  | .connect => (st, if st.connectHandlerOn then handleConnect workspaceId else [])
  | .disconnect => (st, [])

/-- Run a list of lifecycle events, concatenating all emissions. -/
def runLifecycle (workspaceId : String) (st : ClientState) :
    List LifecycleEvent → List Emission
  | [] => []
  | e :: rest =>
      let r := lifecycleStep workspaceId st e
      r.2 ++ runLifecycle workspaceId r.1 rest

/-- One subscription as seen by the socket's listener registry when
`subscribe` is called several times: each call creates fresh
`handleUpdate` / `handleDisconnect` closures, so each registration is an
independent entry, identified here by `sid`. -/
structure SubEntry where
  sid : Nat
  updateOn : Bool
  disconnectOn : Bool
deriving DecidableEq

/-- Socket listener registry across several `subscribe` calls, in
registration order (socket.io invokes listeners in that order). -/
abbrev MultiSubState := List SubEntry

/-- A further `subscribe` call appends a fresh pair of closures. -/
def subscribeMulti (st : MultiSubState) (sid : Nat) : MultiSubState :=
  st ++ [{ sid := sid, updateOn := true, disconnectOn := true }]

/-- The cancellation handle of call `sid` removes exactly the two
closures that call registered; other entries are untouched. -/
def cancelMulti (st : MultiSubState) (sid : Nat) : MultiSubState :=
  st.map fun e =>
    if e.sid = sid then { e with updateOn := false, disconnectOn := false } else e

/-- All `cb` invocations one broadcast causes across the registry,
tagged with the subscription that receives them, in registration
order. -/
def broadcastMulti (bound : String) (st : MultiSubState) (m : Broadcast) :
    List (Nat × String × List Nat) :=
  st.flatMap fun e =>
    if e.updateOn then (handleUpdate bound m).map fun p => (e.sid, p.1, p.2) else []

/-- An HTTP response as far as `AffineStaticSyncStorage.pull` inspects
it: `response.ok` of `fetch` holds exactly for a 2xx status, and the
whole body is read as bytes.  Modelled from the spec for the external
`fetchWithTraceReport` collaborator. -/
structure HttpResponse where
  status : Nat
  body : List Nat
deriving DecidableEq

/-- Predicate `Response.ok`: status in the inclusive range 200-299. -/
def responseOk (r : HttpResponse) : Bool :=
  200 ≤ r.status && r.status < 300

/-- The GET path `AffineStaticSyncStorage.pull` fetches. -/
def staticPullUrl (workspaceId docId : String) : String :=
  "/api/workspaces/" ++ workspaceId ++ "/docs/" ++ docId

/-- Behavior of `AffineStaticSyncStorage.pull` on a received response: a successful
response yields the whole body with no state vector, any other response
yields `null`. -/
def staticPull (r : HttpResponse) : Option PullResult :=
  if responseOk r then some { data := r.body, state := none } else none

/-- Behavior of `AffineStaticSyncStorage.push`: unconditionally throws. -/
def staticPush : Except String Unit :=
  .error "Method not implemented."

/-- Behavior of `AffineStaticSyncStorage.subscribe`: unconditionally throws. -/
def staticSubscribe : Except String Unit :=
  .error "Method not implemented."

/-- The listener registry after two `subscribe` calls on the same client. -/
def twoSubs : MultiSubState := subscribeMulti (subscribeMulti [] 1) 2

/-- Helper for the handshake count: while `handleConnect` stays
registered, a run of lifecycle events emits exactly one handshake per
`connect` event and nothing else. -/
theorem runLifecycle_connectHandlerOn (w : String) (evs : List LifecycleEvent) :
    runLifecycle w { connectHandlerOn := true } evs =
      List.replicate (evs.count LifecycleEvent.connect) (Emission.handshake w) := by
  induction evs with
  | nil => rfl
  | cons e rest ih =>
      cases e with
      | connect =>
          simp [runLifecycle, lifecycleStep, handleConnect, List.count_cons, ih,
            List.replicate_succ]
      | disconnect =>
          simp [runLifecycle, lifecycleStep, List.count_cons, ih]

/-- C1 counterexample: the claim says an empty `localState` leads to an
omitted `stateVector` field, but a present empty state vector is a
truthy `Uint8Array` in the source, so `pull` encodes it and the field is
present (the encoding of the empty blob), not omitted. -/
theorem pull_stateVector_counterexample :
    (pullSend "w" "d" (some [])).payload.stateVector ≠ none := by decide

/-- C1 (amended): for every call `pull(docId, localState)`, if
`localState` is absent the request payload omits the `stateVector`
field; if `localState` is present — empty or not — the payload's
`stateVector` field is its encoding. -/
theorem pull_stateVector_field (w d : String) (state : Option (List Nat)) :
    (state = none → (pullSend w d state).payload.stateVector = none) ∧
    (∀ s, state = some s →
      (pullSend w d state).payload.stateVector = some (uint8ArrayToBase64 s)) := by
  constructor
  · intro h
    subst h
    rfl
  · intro s h
    subst h
    rfl

/-- C1 witness: concrete instances of both branches of
`pull_stateVector_field`. -/
theorem pull_stateVector_field_witness :
    (pullSend "w" "d" none).payload.stateVector = none ∧
    (pullSend "w" "d" (some [1, 2])).payload.stateVector = some "0102" := by
  constructor
  · exact (pull_stateVector_field "w" "d" none).1 rfl
  · have h := (pull_stateVector_field "w" "d" (some [1, 2])).2 [1, 2] rfl
    rw [h]
    decide

/-- C2 counterexample: a data reply that includes the state field as the
empty string is claimed to yield the decoded state, but the source tests
`response.data.state` for truthiness, the empty string is falsy, and the
result carries an absent state instead. -/
theorem pull_reply_empty_state_counterexample :
    pullHandleReply (.payload "" (some "")) ≠
      .ok (some { data := base64ToUint8Array ""
                  state := some (base64ToUint8Array "") }) := by decide

/-- C2 (amended): a `DOC_NOT_FOUND` error reply yields `null` (success);
any other error reply fails with the remote-supplied message; a data
reply yields the decoded `missing` payload together with the decoded
state when the reply includes a non-empty one, and an absent state
otherwise (state field missing or the empty string). -/
theorem pull_reply_handling (reply : PullReply) :
    (∀ e, reply = .err e → e.code = "DOC_NOT_FOUND" → pullHandleReply reply = .ok none) ∧
    (∀ e, reply = .err e → e.code ≠ "DOC_NOT_FOUND" →
      pullHandleReply reply = .error e.message) ∧
    (∀ missing, reply = .payload missing none →
      pullHandleReply reply = .ok (some { data := base64ToUint8Array missing, state := none })) ∧
    (∀ missing s, reply = .payload missing (some s) → s ≠ "" →
      pullHandleReply reply =
        .ok (some { data := base64ToUint8Array missing
                    state := some (base64ToUint8Array s) })) ∧
    (∀ missing, reply = .payload missing (some "") →
      pullHandleReply reply = .ok (some { data := base64ToUint8Array missing, state := none })) := by
  refine ⟨?_, ?_, ?_, ?_, ?_⟩
  · intro e h hc
    subst h
    simp [pullHandleReply, hc]
  · intro e h hc
    subst h
    simp [pullHandleReply, hc]
  · intro missing h
    subst h
    rfl
  · intro missing s h hs
    subst h
    have he : s.isEmpty = false := by
      cases hi : s.isEmpty
      · rfl
      · exact absurd ((String.isEmpty_iff s).mp hi) hs
    simp [pullHandleReply, he]
  · intro missing h
    subst h
    rfl

/-- C2 witness: concrete instances of all five branches of
`pull_reply_handling`. -/
theorem pull_reply_handling_witness :
    pullHandleReply (.err { code := "DOC_NOT_FOUND", message := "m" }) = .ok none ∧
    pullHandleReply (.err { code := "E", message := "boom" }) = .error "boom" ∧
    pullHandleReply (.payload "0102" none) = .ok (some { data := [1, 2], state := none }) ∧
    pullHandleReply (.payload "0102" (some "03")) =
      .ok (some { data := [1, 2], state := some [3] }) ∧
    pullHandleReply (.payload "0102" (some "")) =
      .ok (some { data := [1, 2], state := none }) := by
  refine ⟨?_, ?_, ?_, ?_, ?_⟩
  · exact (pull_reply_handling _).1 _ rfl rfl
  · exact (pull_reply_handling _).2.1 { code := "E", message := "boom" } rfl (by decide)
  · have h := (pull_reply_handling _).2.2.1 "0102" rfl
    rw [h]; decide
  · have h := (pull_reply_handling _).2.2.2.1 "0102" "03" rfl (by decide)
    rw [h]; decide
  · have h := (pull_reply_handling _).2.2.2.2 "0102" rfl
    rw [h]; decide

/-- C3: while a subscription is active, a broadcast whose embedded
collection id differs from the bound one produces no `onUpdate`
invocation, and a matching one produces exactly one invocation per entry
of its update list, in array order, each carrying the broadcast's docId
and the decoded entry. -/
theorem subscribe_filtering (bound : String) (m : Broadcast) :
    (m.workspaceId ≠ bound → handleUpdate bound m = []) ∧
    (m.workspaceId = bound →
      handleUpdate bound m = m.updates.map fun u => (m.guid, base64ToUint8Array u)) := by
  constructor
  · intro h
    simp [handleUpdate, h]
  · intro h
    simp [handleUpdate, h]

/-- C3 witness: a non-matching broadcast is dropped and a matching
two-entry broadcast yields two ordered calls with the same docId. -/
theorem subscribe_filtering_witness :
    handleUpdate "w" { workspaceId := "v", guid := "d", updates := ["00"] } = [] ∧
    handleUpdate "w" { workspaceId := "w", guid := "d", updates := ["0102", "03"] } =
      [("d", [1, 2]), ("d", [3])] := by
  constructor
  · exact (subscribe_filtering "w" _).1 (by decide)
  · have h := (subscribe_filtering "w"
      { workspaceId := "w", guid := "d", updates := ["0102", "03"] }).2 rfl
    rw [h]
    decide

/-- C4: at construction a connected channel yields exactly one immediate
handshake with the bound collection id and no connect request, a
disconnected one yields no emission and a connect request; thereafter
any sequence of lifecycle events yields exactly one further handshake
per connect event (so N disconnect/connect cycles yield N). -/
theorem constructor_handshake (w : String) (connected : Bool) (evs : List LifecycleEvent) :
    (construct w connected).emissions = (if connected then [Emission.handshake w] else []) ∧
    (construct w connected).connectRequested = !connected ∧
    runLifecycle w (construct w connected).st evs =
      List.replicate (evs.count LifecycleEvent.connect) (Emission.handshake w) := by
  exact ⟨rfl, rfl, runLifecycle_connectHandlerOn w evs⟩

/-- C5: a push reply whose `error` field is an error marker (a present,
truthy value — the source's `if (response.error)`) makes `push` fail
carrying that marker; a reply with no error marker resolves with no
value. -/
theorem push_reply_surfacing (r : PushReply) :
    (∀ e, r.error = some e → e.truthy = true → pushHandleReply r = .error e) ∧
    ((∀ e, r.error = some e → e.truthy = false) → pushHandleReply r = .ok ()) := by
  constructor
  · intro e h ht
    simp [pushHandleReply, h, ht]
  · intro h
    cases he : r.error with
    | none => simp [pushHandleReply, he]
    | some e =>
        have := h e he
        simp [pushHandleReply, he, this]

/-- C5 witness: a reply carrying error "X" fails with "X"; an
error-free reply resolves. -/
theorem push_reply_surfacing_witness :
    pushHandleReply { error := some (.str "X") } = .error (.str "X") ∧
    pushHandleReply { error := none } = .ok () := by
  constructor
  · exact (push_reply_surfacing _).1 (.str "X") rfl (by decide)
  · exact (push_reply_surfacing _).2 (fun e h => Option.noConfusion h)

/-- C6: every push request carries the bound collection id, the docId
and a one-element updates array holding the encoding of the update
(including the empty update), and is issued with a fixed 30000 ms
timeout, as is every pull request. -/
theorem push_request_shape (w d : String) (update : List Nat) :
    pushSend w d update =
      { event := "client-update-v2"
        timeoutMs := 30000
        payload := { workspaceId := w, guid := d, updates := [uint8ArrayToBase64 update] } } ∧
    (pushSend w d update).payload.updates.length = 1 ∧
    (∀ state, (pullSend w d state).timeoutMs = 30000) := by
  exact ⟨rfl, rfl, fun _ => rfl⟩

/-- C7: a disconnect delivered to an active subscription detaches the
update handler (post-state) and invokes `onDisconnect` exactly once with
the disconnect reason, and any broadcast delivered afterwards — before a
fresh subscribe — produces zero `onUpdate` invocations. -/
theorem disconnect_handling (bound reason : String) (st : SubState) (m : Broadcast)
    (hOn : st.disconnectOn = true) :
    subStep bound st (.disconnect reason) =
      ({ updateOn := false, disconnectOn := true }, [.disconnected reason]) ∧
    subStep bound (subStep bound st (.disconnect reason)).1 (.broadcast m) =
      ((subStep bound st (.disconnect reason)).1, []) := by
  have h1 : subStep bound st (.disconnect reason) =
      ({ updateOn := false, disconnectOn := true }, [.disconnected reason]) := by
    cases st
    simp_all [subStep]
  constructor
  · exact h1
  · rw [h1]
    simp [subStep]

/-- C7 witness: a freshly installed subscription hit by a disconnect,
then by a matching broadcast. -/
theorem disconnect_handling_witness :
    subStep "w" subscribeInstall (.disconnect "transport close") =
      ({ updateOn := false, disconnectOn := true }, [.disconnected "transport close"]) ∧
    subStep "w" (subStep "w" subscribeInstall (.disconnect "transport close")).1
        (.broadcast { workspaceId := "w", guid := "d", updates := ["01"] }) =
      ((subStep "w" subscribeInstall (.disconnect "transport close")).1, []) := by
  exact disconnect_handling "w" "transport close" subscribeInstall
    { workspaceId := "w", guid := "d", updates := ["01"] } rfl

/-- C8: the cancellation handle detaches both the update and the
disconnect handler, is idempotent, and after it runs no broadcast
produces an `onUpdate` invocation (and no disconnect produces an
`onDisconnect` one). -/
theorem cancel_handle (bound reason : String) (st : SubState) (m : Broadcast) :
    (cancel st).updateOn = false ∧
    (cancel st).disconnectOn = false ∧
    cancel (cancel st) = cancel st ∧
    subStep bound (cancel st) (.broadcast m) = (cancel st, []) ∧
    subStep bound (cancel st) (.disconnect reason) = (cancel st, []) := by
  exact ⟨rfl, rfl, rfl, by simp [subStep, cancel], by simp [subStep, cancel]⟩

/-- C9: the static client's pull fetches the collection/document path
and returns the entire body with no state vector on every 2xx response
and `null` on every non-success response, while push and subscribe
always fail with the not-implemented error. -/
theorem static_client_behavior (r : HttpResponse) (w d : String) :
    (responseOk r = true → staticPull r = some { data := r.body, state := none }) ∧
    (responseOk r = false → staticPull r = none) ∧
    staticPush = .error "Method not implemented." ∧
    staticSubscribe = .error "Method not implemented." ∧
    staticPullUrl w d = "/api/workspaces/" ++ w ++ "/docs/" ++ d := by
  refine ⟨fun h => ?_, fun h => ?_, rfl, rfl, rfl⟩
  · simp [staticPull, h]
  · simp [staticPull, h]

/-- C9 witness: a 200 response yields the body, a 404 yields `null`. -/
theorem static_client_behavior_witness :
    staticPull { status := 200, body := [1, 2] } = some { data := [1, 2], state := none } ∧
    staticPull { status := 404, body := [] } = none := by
  constructor
  · exact (static_client_behavior { status := 200, body := [1, 2] } "w" "d").1 (by decide)
  · exact (static_client_behavior { status := 404, body := [] } "w" "d").2.1 (by decide)

/-- C10: with two subscriptions installed on the same client, a matching
broadcast invokes both subscriptions' callbacks (once per update entry
each, in registration order), and each cancellation handle clears only
its own pair of handlers: after cancelling one subscription the other
still receives every entry. -/
theorem subscribe_stacking (bound : String) (m : Broadcast) (hm : m.workspaceId = bound) :
    broadcastMulti bound twoSubs m =
      ((m.updates.map fun u => (1, m.guid, base64ToUint8Array u)) ++
        (m.updates.map fun u => (2, m.guid, base64ToUint8Array u))) ∧
    cancelMulti twoSubs 1 =
      [{ sid := 1, updateOn := false, disconnectOn := false },
        { sid := 2, updateOn := true, disconnectOn := true }] ∧
    broadcastMulti bound (cancelMulti twoSubs 1) m =
      (m.updates.map fun u => (2, m.guid, base64ToUint8Array u)) ∧
    broadcastMulti bound (cancelMulti twoSubs 2) m =
      (m.updates.map fun u => (1, m.guid, base64ToUint8Array u)) := by
  refine ⟨?_, rfl, ?_, ?_⟩
  · simp [broadcastMulti, twoSubs, subscribeMulti, handleUpdate, hm]
    rfl
  · simp [broadcastMulti, twoSubs, subscribeMulti, cancelMulti, handleUpdate, hm]
  · simp [broadcastMulti, twoSubs, subscribeMulti, cancelMulti, handleUpdate, hm]

/-- C10 witness: both stacked subscriptions receive a matching
broadcast; after cancelling the first, only the second does. -/
theorem subscribe_stacking_witness :
    broadcastMulti "w" twoSubs { workspaceId := "w", guid := "d", updates := ["01"] } =
      [(1, "d", [1]), (2, "d", [1])] ∧
    broadcastMulti "w" (cancelMulti twoSubs 1)
        { workspaceId := "w", guid := "d", updates := ["01"] } =
      [(2, "d", [1])] := by
  have h := subscribe_stacking "w" { workspaceId := "w", guid := "d", updates := ["01"] } rfl
  constructor
  · rw [h.1]
    decide
  · rw [h.2.2.1]
    decide

end AffineSync
